import Mathlib

/-!
Shallow embedding of `src/api/index.js` of the github-assistant-api
repository: an Express HTTP proxy exposing list / delete / create-or-update
operations on a fixed GitHub repository behind a static `x-api-key` header.

The remote hosting API (Octokit) is modelled as an oracle (`Remote`):
a record of three functions that either succeed or fail with an error
message, exactly the three operations the source calls
(`repos.getContent`, `repos.deleteFile`,
`repos.createOrUpdateFileContents`).  Each route handler is embedded as a
pure function from the oracle and the request fields to the HTTP response
it produces together with the ordered trace of remote calls it issues.
Absent JSON fields / `undefined` are modelled with `Option`.
-/

namespace GitHubAssistant

/-- A content record returned by the hosting API (`response.data` element):
the fields the source reads are `path`, `type` and `sha`. -/
structure ContentEntry where
  path : String
  type : String
  sha : String
deriving DecidableEq

/-- `response.data` of `getContent`: either a single (non-array) object or
an array of entries (`Array.isArray(fileData)` distinguishes the two). -/
inductive ContentData where
  | single (entry : ContentEntry)
  | entries (items : List ContentEntry)
deriving DecidableEq

/-- JavaScript `response.data.sha`: the `sha` field of a single object, and
`undefined` when `response.data` is an array (arrays have no `sha`). -/
def ContentData.dataSha : ContentData → Option String
  | .single e => some e.sha
  | .entries _ => none

/-- The remote hosting API as an oracle: the three Octokit operations the
source calls.  `deleteFile path message sha`;
`createOrUpdateFileContents path message content sha?`. -/
structure Remote where
  getContent : String → Except String ContentData
  deleteFile : String → String → String → Except String Unit
  createOrUpdateFileContents :
    String → String → String → Option String → Except String Unit

/-- One remote call as recorded in a handler's trace, with the arguments
the source passes. -/
inductive RemoteCall where
  | getContent (path : String)
  | deleteFile (path message sha : String)
  | createOrUpdateFileContents (path message content : String)
      (sha : Option String)
deriving DecidableEq

/-- A per-item outcome pushed onto `results` in the directory-delete loop.
The source pushes `{success: true, path}` on success and
`{error, path}` on failure; absent fields are `none`. -/
structure ItemResult where
  success : Option Bool
  path : String
  message : Option String
  error : Option String
deriving DecidableEq

/-- The JSON bodies the source sends:
`res.json(response.data)`, `{error}`, `{success: true, message}`,
`{success: true, results, message}`. -/
inductive Body where
  | contentData (d : ContentData)
  | errorBody (error : String)
  | okMessage (message : String)
  | okResults (results : List ItemResult) (message : String)
deriving DecidableEq

/-- An HTTP response: status code (`res.json` alone means 200) and body. -/
structure Response where
  status : Nat
  body : Body
deriving DecidableEq

/-- JavaScript falsiness of an optional string field: `!x` is true exactly
when the field is absent (`undefined`) or the empty string. -/
def jsFalsy : Option String → Bool
  | none => true
  | some s => s == ""

/-- JavaScript `x || d` for an optional string `x` and default `d`:
yields `d` when `x` is falsy. -/
def jsOrDefault (x : Option String) (d : String) : String :=
  match x with
  | none => d
  | some s => if s == "" then d else s

/-- `GET /api/list` handler body (src/api/index.js lines 38-52):
`path = req.query.path || ''`; on success returns the raw data as JSON,
on any error returns 500 with `{error: message}`. -/
def listHandler (r : Remote) (path : Option String) :
    Response × List RemoteCall :=
  let p := jsOrDefault path ""
  match r.getContent p with
  | .ok d => (⟨200, .contentData d⟩, [.getContent p])
  | .error e => (⟨500, .errorBody e⟩, [.getContent p])

/-- The directory branch of the delete handler (lines 81-97): iterate the
entries in order, and for each entry of type `"file"` issue one
`deleteFile` call with message `Delete <path>` and the entry's sha,
pushing `{success: true, path}` or `{error, path}`. -/
def deleteDirLoop (r : Remote) :
    List ContentEntry → List ItemResult × List RemoteCall
  | [] => ([], [])
  | item :: rest =>
    if item.type == "file" then
      let outcome :=
        match r.deleteFile item.path ("Delete " ++ item.path) item.sha with
        | .ok _ => ItemResult.mk (some true) item.path none none
        | .error e => ItemResult.mk none item.path none (some e)
      let tail := deleteDirLoop r rest
      (outcome :: tail.1,
        .deleteFile item.path ("Delete " ++ item.path) item.sha :: tail.2)
    else deleteDirLoop r rest

/-- `POST /api/delete` handler body (lines 55-115): 400 when `path` is
falsy; 404 `File not found: <msg>` when the sha-resolving `getContent`
fails; otherwise directory batch or single-file delete, with any
uncaught error mapped to 500 `{error}`. -/
def deleteHandler (r : Remote) (path : Option String) :
    Response × List RemoteCall :=
  if jsFalsy path then
    (⟨400, .errorBody "Path is required"⟩, [])
  else
    let p := jsOrDefault path ""
    match r.getContent p with
    | .error e =>
      (⟨404, .errorBody ("File not found: " ++ e)⟩, [.getContent p])
    | .ok (.entries items) =>
      let batch := deleteDirLoop r items
      (⟨200, .okResults batch.1 ("Processed directory " ++ p)⟩,
        .getContent p :: batch.2)
    | .ok (.single fd) =>
      match r.deleteFile p ("Delete " ++ p) fd.sha with
      | .ok _ =>
        (⟨200, .okMessage ("Deleted file " ++ p)⟩,
          [.getContent p, .deleteFile p ("Delete " ++ p) fd.sha])
      | .error e =>
        (⟨500, .errorBody e⟩,
          [.getContent p, .deleteFile p ("Delete " ++ p) fd.sha])

/-- The base64 alphabet, index 0 to 63. -/
def b64Alphabet : List Char :=
  "ABCDEFGHIJKLMNOPQRSTUVWXYZabcdefghijklmnopqrstuvwxyz0123456789+/".toList

/-- The base64 digit character for a 6-bit value. -/
def b64Char (n : Nat) : Char := b64Alphabet.getD n 'A'

/-- Index of a character in a list, or `none`. -/
def lookupIdx : List Char → Char → Nat → Option Nat
  | [], _, _ => none
  | a :: rest, c, i => if a = c then some i else lookupIdx rest c (i + 1)

/-- The 6-bit value of a base64 digit character, `none` for a character
outside the alphabet. -/
def b64Val (c : Char) : Option Nat := lookupIdx b64Alphabet c 0

/-- RFC 4648 base64 of a byte sequence, as `Buffer.toString('base64')`
produces: 3-byte groups to 4 digits, with `=` padding on a 1- or 2-byte
tail. -/
def b64EncodeBytes : List Nat → List Char
  | [] => []
  | [a] => [b64Char (a / 4), b64Char (a % 4 * 16), '=', '=']
  | [a, b] =>
    [b64Char (a / 4), b64Char (a % 4 * 16 + b / 16), b64Char (b % 16 * 4),
      '=']
  | a :: b :: c :: rest =>
    b64Char (a / 4) :: b64Char (a % 4 * 16 + b / 16) ::
      b64Char (b % 16 * 4 + c / 64) :: b64Char (c % 64) ::
      b64EncodeBytes rest

/-- Standard base64 decoding of a character sequence back to bytes;
`none` on any malformed input.  This is the inverse direction the spec's
round-trip property quantifies over. -/
def b64DecodeChars : List Char → Option (List Nat)
  | [] => some []
  | c0 :: c1 :: c2 :: c3 :: rest =>
    match b64Val c0, b64Val c1 with
    | some v0, some v1 =>
      if c2 = '=' then
        if c3 = '=' ∧ rest = [] ∧ v1 % 16 = 0 then
          some [v0 * 4 + v1 / 16]
        else none
      else
        match b64Val c2 with
        | some v2 =>
          if c3 = '=' then
            if rest = [] ∧ v2 % 4 = 0 then
              some [v0 * 4 + v1 / 16, v1 % 16 * 16 + v2 / 4]
            else none
          else
            match b64Val c3 with
            | some v3 =>
              (b64DecodeChars rest).map fun bs =>
                (v0 * 4 + v1 / 16) :: (v1 % 16 * 16 + v2 / 4) ::
                  (v2 % 4 * 64 + v3) :: bs
            | none => none
        | none => none
    | _, _ => none
  | _ => none

/-- UTF-8 encoding of one code point, as byte values. -/
def utf8EncodeCharNat (c : Char) : List Nat :=
  let n := c.toNat
  if n < 128 then [n]
  else if n < 2048 then [192 + n / 64, 128 + n % 64]
  else if n < 65536 then [224 + n / 4096, 128 + n / 64 % 64, 128 + n % 64]
  else [240 + n / 262144, 128 + n / 4096 % 64, 128 + n / 64 % 64,
    128 + n % 64]

/-- The UTF-8 bytes of a string, as `Buffer.from(content)` produces. -/
def utf8Bytes (s : String) : List Nat := s.data.flatMap utf8EncodeCharNat

/-- `Buffer.from(content).toString('base64')` (line 146). -/
def jsBase64 (s : String) : String :=
  String.mk (b64EncodeBytes (utf8Bytes s))

/-- The pre-write sha lookup of the create handler (lines 127-138):
`sha = response.data.sha` on success, and `undefined` (the failure being
swallowed by the empty catch) when `getContent` throws. -/
def lookupSha (r : Remote) (p : String) : Option String :=
  match r.getContent p with
  | .ok d => d.dataSha
  | .error _ => none

/-- `POST /api/create` handler body (lines 118-154): 400 when `path` or
`content` is falsy; a sha lookup whose failure is swallowed; then one
`createOrUpdateFileContents` call with message
`message || Update <path>`, base64-encoded content, and the looked-up
sha (or none). -/
def createHandler (r : Remote) (path content message : Option String) :
    Response × List RemoteCall :=
  if jsFalsy path || jsFalsy content then
    (⟨400, .errorBody "Path and content are required"⟩, [])
  else
    let p := jsOrDefault path ""
    let c := jsOrDefault content ""
    let sha : Option String := lookupSha r p
    let msg := jsOrDefault message ("Update " ++ p)
    let enc := jsBase64 c
    match r.createOrUpdateFileContents p msg enc sha with
    | .ok _ =>
      (⟨200, .okMessage ("Updated " ++ p)⟩,
        [.getContent p, .createOrUpdateFileContents p msg enc sha])
    | .error e =>
      (⟨500, .errorBody e⟩,
        [.getContent p, .createOrUpdateFileContents p msg enc sha])

/-- The directory branch of the delete logic inlined in `/api/claude`
(lines 193-209): a verbatim copy of the loop at lines 81-97, embedded
separately because the source duplicates the code. -/
def claudeDeleteDirLoop (r : Remote) :
    List ContentEntry → List ItemResult × List RemoteCall
  | [] => ([], [])
  | item :: rest =>
    if item.type == "file" then
      let outcome :=
        match r.deleteFile item.path ("Delete " ++ item.path) item.sha with
        | .ok _ => ItemResult.mk (some true) item.path none none
        | .error e => ItemResult.mk none item.path none (some e)
      let tail := claudeDeleteDirLoop r rest
      (outcome :: tail.1,
        .deleteFile item.path ("Delete " ++ item.path) item.sha :: tail.2)
    else claudeDeleteDirLoop r rest

/-- `POST /api/claude` handler body (lines 157-262): dispatch on `action`
over inline copies of the list / delete / create logic, falling back to
400 for any other action value.  The three branches are embedded from the
duplicated source code, not by calling the dedicated handlers, so that
their equivalence is a theorem rather than a definition. -/
def claudeHandler (r : Remote) (action path content message : Option String) :
    Response × List RemoteCall :=
  if action == some "list" then
    let p := jsOrDefault path ""
    match r.getContent p with
    | .ok d => (⟨200, .contentData d⟩, [.getContent p])
    | .error e => (⟨500, .errorBody e⟩, [.getContent p])
  else if action == some "delete" then
    if jsFalsy path then
      (⟨400, .errorBody "Path is required"⟩, [])
    else
      let p := jsOrDefault path ""
      match r.getContent p with
      | .error e =>
        (⟨404, .errorBody ("File not found: " ++ e)⟩, [.getContent p])
      | .ok (.entries items) =>
        let batch := claudeDeleteDirLoop r items
        (⟨200, .okResults batch.1 ("Processed directory " ++ p)⟩,
          .getContent p :: batch.2)
      | .ok (.single fd) =>
        match r.deleteFile p ("Delete " ++ p) fd.sha with
        | .ok _ =>
          (⟨200, .okMessage ("Deleted file " ++ p)⟩,
            [.getContent p, .deleteFile p ("Delete " ++ p) fd.sha])
        | .error e =>
          (⟨500, .errorBody e⟩,
            [.getContent p, .deleteFile p ("Delete " ++ p) fd.sha])
  else if action == some "create" then
    if jsFalsy path || jsFalsy content then
      (⟨400, .errorBody "Path and content are required"⟩, [])
    else
      let p := jsOrDefault path ""
      let c := jsOrDefault content ""
      let sha : Option String :=
        match r.getContent p with
        | .ok d => d.dataSha
        | .error _ => none
      let msg := jsOrDefault message ("Update " ++ p)
      let enc := jsBase64 c
      match r.createOrUpdateFileContents p msg enc sha with
      | .ok _ =>
        (⟨200, .okMessage ("Updated " ++ p)⟩,
          [.getContent p, .createOrUpdateFileContents p msg enc sha])
      | .error e =>
        (⟨500, .errorBody e⟩,
          [.getContent p, .createOrUpdateFileContents p msg enc sha])
  else
    (⟨400, .errorBody "Invalid action. Use 'list', 'delete', or 'create'"⟩,
      [])

/-- The `checkApiKey` middleware (lines 22-30): the provided
`x-api-key` header passes only when it is truthy and strictly equal
(`!==` negated) to the configured `API_KEY`; both may be absent. -/
def checkApiKey (apiKey provided : Option String) : Bool :=
  match provided with
  | none => false
  | some p => (p != "") && (some p == apiKey)

/-- The carried 401 response of the middleware. -/
def unauthorizedResponse : Response :=
  ⟨401, .errorBody "Unauthorized - Invalid API key"⟩

/-- The route `GET /api/list` with the `checkApiKey` middleware in front:
on auth failure the middleware responds 401 and the handler never runs,
so no remote call is made. -/
def apiList (r : Remote) (apiKey provided path : Option String) :
    Response × List RemoteCall :=
  if checkApiKey apiKey provided then listHandler r path
  else (unauthorizedResponse, [])

/-- The route `POST /api/delete` with the `checkApiKey` middleware. -/
def apiDelete (r : Remote) (apiKey provided path : Option String) :
    Response × List RemoteCall :=
  if checkApiKey apiKey provided then deleteHandler r path
  else (unauthorizedResponse, [])

/-- The route `POST /api/create` with the `checkApiKey` middleware. -/
def apiCreate (r : Remote) (apiKey provided path content message :
    Option String) : Response × List RemoteCall :=
  if checkApiKey apiKey provided then createHandler r path content message
  else (unauthorizedResponse, [])

/-- The route `POST /api/claude` with the `checkApiKey` middleware. -/
def apiClaude (r : Remote) (apiKey provided action path content message :
    Option String) : Response × List RemoteCall :=
  if checkApiKey apiKey provided then
    claudeHandler r action path content message
  else (unauthorizedResponse, [])

/-- The per-item result the directory-delete loop produces for a file
entry, as a function of the remote outcome: used to state the batch
theorems. -/
def itemOutcome (r : Remote) (item : ContentEntry) : ItemResult :=
  match r.deleteFile item.path ("Delete " ++ item.path) item.sha with
  | .ok _ => ItemResult.mk (some true) item.path none none
  | .error e => ItemResult.mk none item.path none (some e)

/-- The `results` list of a response body, when present. -/
def Body.resultsOf : Body → List ItemResult
  | .okResults rs _ => rs
  | _ => []

/-- Whether a trace entry is a `deleteFile` call. -/
def RemoteCall.isDelete : RemoteCall → Bool
  | .deleteFile _ _ _ => true
  | _ => false

/-- A concrete directory listing used to exercise the handlers: two file
entries and one directory entry. -/
def sampleDirItems : List ContentEntry :=
  [ContentEntry.mk "dir/a.txt" "file" "shaA",
   ContentEntry.mk "dir/b.txt" "file" "shaB",
   ContentEntry.mk "dir/sub" "dir" "shaS"]

/-- A concrete remote oracle used to exercise the handlers: `dir` is a
directory listing, `a.txt` an existing file, everything else absent;
deleting `dir/b.txt` fails, every other mutation succeeds. -/
def sampleRemote : Remote where
  getContent := fun p =>
    if p = "dir" then .ok (.entries sampleDirItems)
    else if p = "a.txt" then
      .ok (.single (ContentEntry.mk "a.txt" "file" "shaA"))
    else .error "Not Found"
  deleteFile := fun p _ _ =>
    if p = "dir/b.txt" then .error "boom" else .ok ()
  createOrUpdateFileContents := fun _ _ _ _ => .ok ()

/-! ### Helper lemmas -/

theorem b64Val_b64Char : ∀ n, n < 64 → b64Val (b64Char n) = some n := by
  decide

theorem b64Char_ne_pad : ∀ n, n < 64 → b64Char n ≠ '=' := by decide

theorem b64_roundtrip : ∀ bs : List Nat, (∀ b ∈ bs, b < 256) →
    b64DecodeChars (b64EncodeBytes bs) = some bs := by
  intro bs
  induction bs using b64EncodeBytes.induct with
  | case1 => intro _; rfl
  | case2 a =>
    intro h
    have ha : a < 256 := h a (by simp)
    have hm : a % 4 * 16 % 16 = 0 := by omega
    simp only [b64EncodeBytes, b64DecodeChars,
      b64Val_b64Char (a / 4) (by omega),
      b64Val_b64Char (a % 4 * 16) (by omega)]
    simp [hm]
    omega
  | case3 a b =>
    intro h
    have ha : a < 256 := h a (by simp)
    have hb : b < 256 := h b (by simp)
    have hm : b % 16 * 4 % 4 = 0 := by omega
    simp only [b64EncodeBytes, b64DecodeChars,
      b64Val_b64Char (a / 4) (by omega),
      b64Val_b64Char (a % 4 * 16 + b / 16) (by omega),
      b64Val_b64Char (b % 16 * 4) (by omega)]
    rw [if_neg (b64Char_ne_pad (b % 16 * 4) (by omega))]
    simp [hm]
    omega
  | case4 a b c rest ih =>
    intro h
    have ha : a < 256 := h a (by simp)
    have hb : b < 256 := h b (by simp)
    have hc : c < 256 := h c (by simp)
    have ih' := ih fun x hx => h x (by simp [hx])
    simp only [b64EncodeBytes, b64DecodeChars,
      b64Val_b64Char (a / 4) (by omega),
      b64Val_b64Char (a % 4 * 16 + b / 16) (by omega),
      b64Val_b64Char (b % 16 * 4 + c / 64) (by omega),
      b64Val_b64Char (c % 64) (by omega)]
    rw [if_neg (b64Char_ne_pad (b % 16 * 4 + c / 64) (by omega)),
      if_neg (b64Char_ne_pad (c % 64) (by omega))]
    rw [ih']
    simp only [Option.map_some', Option.some.injEq, List.cons.injEq]
    exact ⟨by omega, by omega, by omega, trivial⟩

theorem char_toNat_lt_limit (c : Char) : c.toNat < 1114112 := by
  have h := c.valid
  rcases h with h | h
  · exact Nat.lt_trans h (by norm_num)
  · exact h.2

theorem utf8EncodeCharNat_lt (c : Char) :
    ∀ b ∈ utf8EncodeCharNat c, b < 256 := by
  intro b hb
  have hc := char_toNat_lt_limit c
  simp only [utf8EncodeCharNat] at hb
  split_ifs at hb <;> simp only [List.mem_cons, List.mem_singleton,
    List.not_mem_nil, or_false] at hb <;> omega

theorem utf8Bytes_lt (s : String) : ∀ b ∈ utf8Bytes s, b < 256 := by
  intro b hb
  simp only [utf8Bytes, List.mem_flatMap] at hb
  obtain ⟨c, _, hbc⟩ := hb
  exact utf8EncodeCharNat_lt c b hbc

theorem deleteDirLoop_spec (r : Remote) (items : List ContentEntry) :
    deleteDirLoop r items =
      ((items.filter fun it => it.type == "file").map (itemOutcome r),
       (items.filter fun it => it.type == "file").map
         fun it =>
           RemoteCall.deleteFile it.path ("Delete " ++ it.path) it.sha) := by
  induction items with
  | nil => rfl
  | cons item rest ih =>
    simp only [deleteDirLoop, List.filter_cons]
    cases hty : item.type == "file" <;>
      simp [hty, ih, itemOutcome]

theorem claudeDeleteDirLoop_eq : claudeDeleteDirLoop = deleteDirLoop := by
  funext r items
  induction items with
  | nil => rfl
  | cons item rest ih =>
    simp only [claudeDeleteDirLoop, deleteDirLoop]
    cases hty : item.type == "file" <;> simp [hty, ih]

theorem routes_unauthorized (r : Remote)
    (apiKey provided action path content message : Option String)
    (h : checkApiKey apiKey provided = false) :
    apiList r apiKey provided path = (unauthorizedResponse, []) ∧
    apiDelete r apiKey provided path = (unauthorizedResponse, []) ∧
    apiCreate r apiKey provided path content message =
      (unauthorizedResponse, []) ∧
    apiClaude r apiKey provided action path content message =
      (unauthorizedResponse, []) := by
  simp [apiList, apiDelete, apiCreate, apiClaude, h]

theorem claudeHandler_list (r : Remote) (path content message : Option String) :
    claudeHandler r (some "list") path content message = listHandler r path := by
  simp [claudeHandler, listHandler]

theorem claudeHandler_delete (r : Remote)
    (path content message : Option String) :
    claudeHandler r (some "delete") path content message =
      deleteHandler r path := by
  have h1 : ((some "delete" : Option String) == some "list") = false := by
    decide
  simp [claudeHandler, deleteHandler, claudeDeleteDirLoop_eq, h1]

theorem claudeHandler_create (r : Remote)
    (path content message : Option String) :
    claudeHandler r (some "create") path content message =
      createHandler r path content message := by
  have h1 : ((some "create" : Option String) == some "list") = false := by
    decide
  have h2 : ((some "create" : Option String) == some "delete") = false := by
    decide
  simp [claudeHandler, createHandler, lookupSha, h1, h2]

theorem deleteHandler_dir (r : Remote) (p : String)
    (items : List ContentEntry) (hp : p ≠ "")
    (hr : r.getContent p = .ok (.entries items)) :
    deleteHandler r (some p) =
      (⟨200,
        .okResults
          ((items.filter fun it => it.type == "file").map (itemOutcome r))
          ("Processed directory " ++ p)⟩,
        .getContent p ::
          (items.filter fun it => it.type == "file").map
            fun it =>
              RemoteCall.deleteFile it.path ("Delete " ++ it.path) it.sha) := by
  have hq : jsOrDefault (some p) "" = p := by simp [jsOrDefault, hp]
  simp [deleteHandler, jsFalsy, hp, hq, hr, deleteDirLoop_spec]

theorem createHandler_valid (r : Remote) (p c : String)
    (message : Option String) (hp : p ≠ "") (hc : c ≠ "") :
    createHandler r (some p) (some c) message =
      ((match r.createOrUpdateFileContents p
          (jsOrDefault message ("Update " ++ p)) (jsBase64 c)
          (lookupSha r p) with
        | .ok _ => ⟨200, .okMessage ("Updated " ++ p)⟩
        | .error e => ⟨500, .errorBody e⟩),
        [.getContent p,
         .createOrUpdateFileContents p (jsOrDefault message ("Update " ++ p))
           (jsBase64 c) (lookupSha r p)]) := by
  have hqp : jsOrDefault (some p) "" = p := by simp [jsOrDefault, hp]
  have hqc : jsOrDefault (some c) "" = c := by simp [jsOrDefault, hc]
  simp only [createHandler, jsFalsy, hqp, hqc]
  rw [if_neg (by simp [hp, hc])]
  cases hw : r.createOrUpdateFileContents p
      (jsOrDefault message ("Update " ++ p)) (jsBase64 c) (lookupSha r p) <;>
    simp [hw]

theorem claudeHandler_other (r : Remote)
    (action path content message : Option String)
    (h1 : action ≠ some "list") (h2 : action ≠ some "delete")
    (h3 : action ≠ some "create") :
    claudeHandler r action path content message =
      (⟨400, .errorBody "Invalid action. Use 'list', 'delete', or 'create'"⟩,
        []) := by
  simp [claudeHandler, h1, h2, h3]

/-! ### Claim theorems -/

/-- C1: For every request to a protected endpoint (`/api/list`,
`/api/delete`, `/api/create`, `/api/claude`) whose `x-api-key` header is
absent or not exactly equal to the configured API key, the response is
exactly 401 with body `{error: "Unauthorized - Invalid API key"}`, and no
remote call is made for that request. -/
theorem C1_unauthorized_short_circuit (r : Remote)
    (apiKey provided action path content message : Option String)
    (h : checkApiKey apiKey provided = false) :
    apiList r apiKey provided path =
      (⟨401, .errorBody "Unauthorized - Invalid API key"⟩, []) ∧
    apiDelete r apiKey provided path =
      (⟨401, .errorBody "Unauthorized - Invalid API key"⟩, []) ∧
    apiCreate r apiKey provided path content message =
      (⟨401, .errorBody "Unauthorized - Invalid API key"⟩, []) ∧
    apiClaude r apiKey provided action path content message =
      (⟨401, .errorBody "Unauthorized - Invalid API key"⟩, []) :=
  routes_unauthorized r apiKey provided action path content message h

/-- Witness for C1 at a concrete mismatching key. -/
theorem C1_unauthorized_short_circuit_witness :
    apiList sampleRemote (some "secret") (some "wrong") (some "dir") =
      (⟨401, .errorBody "Unauthorized - Invalid API key"⟩, []) ∧
    apiDelete sampleRemote (some "secret") (some "wrong") (some "dir") =
      (⟨401, .errorBody "Unauthorized - Invalid API key"⟩, []) ∧
    apiCreate sampleRemote (some "secret") (some "wrong") (some "a.txt")
        (some "hi") none =
      (⟨401, .errorBody "Unauthorized - Invalid API key"⟩, []) ∧
    apiClaude sampleRemote (some "secret") (some "wrong") (some "list")
        (some "dir") none none =
      (⟨401, .errorBody "Unauthorized - Invalid API key"⟩, []) :=
  C1_unauthorized_short_circuit sampleRemote (some "secret") (some "wrong")
    (some "list") (some "dir") (some "hi") none (by decide)

/-- C2: For every authorized delete request whose path resolves to a
directory listing, the handler issues exactly one `deleteFile` call per
entry of type `"file"`, in listing order, the `results` array has the
same length, and the response is status 200 with `success: true`
(`okResults`) even when individual deletes fail: each item's outcome is
the independent `itemOutcome` of its own remote call, so a failure never
prevents earlier or later deletes. -/
theorem C2_directory_delete_batch (r : Remote) (p : String)
    (items : List ContentEntry) (hp : p ≠ "")
    (hr : r.getContent p = .ok (.entries items)) :
    deleteHandler r (some p) =
      (⟨200,
        .okResults
          ((items.filter fun it => it.type == "file").map (itemOutcome r))
          ("Processed directory " ++ p)⟩,
        .getContent p ::
          (items.filter fun it => it.type == "file").map
            fun it =>
              RemoteCall.deleteFile it.path ("Delete " ++ it.path)
                it.sha) ∧
    ((items.filter fun it => it.type == "file").map (itemOutcome r)).length
      = (items.filter fun it => it.type == "file").length :=
  ⟨deleteHandler_dir r p items hp hr, by simp⟩

/-- Witness for C2 on a concrete directory with one failing delete. -/
theorem C2_directory_delete_batch_witness :
    deleteHandler sampleRemote (some "dir") =
      (⟨200,
        .okResults
          ((sampleDirItems.filter fun it => it.type == "file").map
            (itemOutcome sampleRemote))
          ("Processed directory " ++ "dir")⟩,
        .getContent "dir" ::
          (sampleDirItems.filter fun it => it.type == "file").map
            fun it =>
              RemoteCall.deleteFile it.path ("Delete " ++ it.path)
                it.sha) ∧
    ((sampleDirItems.filter fun it => it.type == "file").map
      (itemOutcome sampleRemote)).length
      = (sampleDirItems.filter fun it => it.type == "file").length :=
  C2_directory_delete_batch sampleRemote "dir" sampleDirItems (by decide)
    (by rfl)

/-- C3: `POST /api/claude` with action `list`, `delete`, `create`
produces exactly the output (response and trace) of the dedicated
handler on the equivalent input, and any other action value yields 400
with the invalid-action message and no remote call. -/
theorem C3_claude_dispatch_equivalence (r : Remote)
    (action path content message : Option String) :
    claudeHandler r (some "list") path content message =
      listHandler r path ∧
    claudeHandler r (some "delete") path content message =
      deleteHandler r path ∧
    claudeHandler r (some "create") path content message =
      createHandler r path content message ∧
    (action ≠ some "list" → action ≠ some "delete" →
      action ≠ some "create" →
      claudeHandler r action path content message =
        (⟨400,
          .errorBody "Invalid action. Use 'list', 'delete', or 'create'"⟩,
          [])) :=
  ⟨claudeHandler_list r path content message,
   claudeHandler_delete r path content message,
   claudeHandler_create r path content message,
   fun h1 h2 h3 =>
     claudeHandler_other r action path content message h1 h2 h3⟩

/-- Witness for C3 at concrete inputs, including an invalid action. -/
theorem C3_claude_dispatch_equivalence_witness :
    claudeHandler sampleRemote (some "list") (some "dir") none none =
      listHandler sampleRemote (some "dir") ∧
    claudeHandler sampleRemote (some "delete") (some "dir") none none =
      deleteHandler sampleRemote (some "dir") ∧
    claudeHandler sampleRemote (some "create") (some "dir") none none =
      createHandler sampleRemote (some "dir") none none ∧
    claudeHandler sampleRemote (some "noop") (some "dir") none none =
      (⟨400,
        .errorBody "Invalid action. Use 'list', 'delete', or 'create'"⟩,
        []) :=
  have h := C3_claude_dispatch_equivalence sampleRemote (some "noop")
    (some "dir") none none
  ⟨h.1, h.2.1, h.2.2.1, h.2.2.2 (by decide) (by decide) (by decide)⟩

/-- C4: For every authorized create request, a failed pre-write sha
lookup is swallowed (sha left unset) and a successful lookup yields
exactly the resolved `response.data.sha`; the single write call carries
that sha, and the response is decided solely by the write call's
outcome, never by the lookup failure. -/
theorem C4_create_sha_lookup (r : Remote) (p c : String)
    (message : Option String) (hp : p ≠ "") (hc : c ≠ "") :
    (∀ e, r.getContent p = .error e → lookupSha r p = none) ∧
    (∀ d, r.getContent p = .ok d → lookupSha r p = d.dataSha) ∧
    (createHandler r (some p) (some c) message).2 =
      [.getContent p,
       .createOrUpdateFileContents p (jsOrDefault message ("Update " ++ p))
         (jsBase64 c) (lookupSha r p)] ∧
    (∀ u, r.createOrUpdateFileContents p
        (jsOrDefault message ("Update " ++ p)) (jsBase64 c)
        (lookupSha r p) = .ok u →
      (createHandler r (some p) (some c) message).1 =
        ⟨200, .okMessage ("Updated " ++ p)⟩) ∧
    (∀ e, r.createOrUpdateFileContents p
        (jsOrDefault message ("Update " ++ p)) (jsBase64 c)
        (lookupSha r p) = .error e →
      (createHandler r (some p) (some c) message).1 =
        ⟨500, .errorBody e⟩) := by
  refine ⟨fun e he => by simp [lookupSha, he],
    fun d hd => by simp [lookupSha, hd], ?_, ?_, ?_⟩
  · rw [createHandler_valid r p c message hp hc]
  · intro u hw
    rw [createHandler_valid r p c message hp hc]
    simp [hw]
  · intro e hw
    rw [createHandler_valid r p c message hp hc]
    simp [hw]

/-- Witness for C4 at a path absent from the remote. -/
theorem C4_create_sha_lookup_witness :
    (∀ e, sampleRemote.getContent "new.txt" = .error e →
      lookupSha sampleRemote "new.txt" = none) ∧
    (∀ d, sampleRemote.getContent "new.txt" = .ok d →
      lookupSha sampleRemote "new.txt" = d.dataSha) ∧
    (createHandler sampleRemote (some "new.txt") (some "hi") none).2 =
      [.getContent "new.txt",
       .createOrUpdateFileContents "new.txt"
         (jsOrDefault none ("Update " ++ "new.txt")) (jsBase64 "hi")
         (lookupSha sampleRemote "new.txt")] ∧
    (∀ u, sampleRemote.createOrUpdateFileContents "new.txt"
        (jsOrDefault none ("Update " ++ "new.txt")) (jsBase64 "hi")
        (lookupSha sampleRemote "new.txt") = .ok u →
      (createHandler sampleRemote (some "new.txt") (some "hi") none).1 =
        ⟨200, .okMessage ("Updated " ++ "new.txt")⟩) ∧
    (∀ e, sampleRemote.createOrUpdateFileContents "new.txt"
        (jsOrDefault none ("Update " ++ "new.txt")) (jsBase64 "hi")
        (lookupSha sampleRemote "new.txt") = .error e →
      (createHandler sampleRemote (some "new.txt") (some "hi") none).1 =
        ⟨500, .errorBody e⟩) :=
  C4_create_sha_lookup sampleRemote "new.txt" "hi" none (by decide)
    (by decide)

/-- C5: For every authorized create request, the transmitted content is
the base64 encoding of the UTF-8 bytes of the submitted content, and
decoding it recovers those bytes exactly (encode-then-decode is the
identity on the submitted content). -/
theorem C5_base64_roundtrip (r : Remote) (p c : String)
    (message : Option String) (hp : p ≠ "") (hc : c ≠ "") :
    (createHandler r (some p) (some c) message).2 =
      [.getContent p,
       .createOrUpdateFileContents p (jsOrDefault message ("Update " ++ p))
         (jsBase64 c) (lookupSha r p)] ∧
    (jsBase64 c).data = b64EncodeBytes (utf8Bytes c) ∧
    b64DecodeChars (jsBase64 c).data = some (utf8Bytes c) := by
  refine ⟨?_, rfl, ?_⟩
  · rw [createHandler_valid r p c message hp hc]
  · show b64DecodeChars (b64EncodeBytes (utf8Bytes c)) = some (utf8Bytes c)
    exact b64_roundtrip (utf8Bytes c) (utf8Bytes_lt c)

/-- Witness for C5 at concrete content. -/
theorem C5_base64_roundtrip_witness :
    (createHandler sampleRemote (some "a.txt") (some "hi") none).2 =
      [.getContent "a.txt",
       .createOrUpdateFileContents "a.txt"
         (jsOrDefault none ("Update " ++ "a.txt")) (jsBase64 "hi")
         (lookupSha sampleRemote "a.txt")] ∧
    (jsBase64 "hi").data = b64EncodeBytes (utf8Bytes "hi") ∧
    b64DecodeChars (jsBase64 "hi").data = some (utf8Bytes "hi") :=
  C5_base64_roundtrip sampleRemote "a.txt" "hi" none (by decide) (by decide)

/-- C6: For every authorized delete request with a non-empty path whose
initial content resolution fails, the response is exactly 404 with
`File not found: <message>`, and no `deleteFile` call is made. -/
theorem C6_delete_not_found (r : Remote) (p e : String)
    (hp : p ≠ "") (hr : r.getContent p = .error e) :
    deleteHandler r (some p) =
      (⟨404, .errorBody ("File not found: " ++ e)⟩, [.getContent p]) ∧
    ∀ call ∈ (deleteHandler r (some p)).2, call.isDelete = false := by
  have hq : jsOrDefault (some p) "" = p := by simp [jsOrDefault, hp]
  have hmain : deleteHandler r (some p) =
      (⟨404, .errorBody ("File not found: " ++ e)⟩, [.getContent p]) := by
    simp [deleteHandler, jsFalsy, hp, hq, hr]
  refine ⟨hmain, ?_⟩
  rw [hmain]
  intro call hcall
  simp only [List.mem_singleton] at hcall
  subst hcall
  rfl

/-- Witness for C6 on a concrete absent path. -/
theorem C6_delete_not_found_witness :
    deleteHandler sampleRemote (some "nope") =
      (⟨404, .errorBody ("File not found: " ++ "Not Found")⟩,
        [.getContent "nope"]) ∧
    ∀ call ∈ (deleteHandler sampleRemote (some "nope")).2,
      call.isDelete = false :=
  C6_delete_not_found sampleRemote "nope" "Not Found" (by decide) (by rfl)

/-- C7: For every authorized request, delete responds 400 when the
body's path is missing, and create responds 400 when path or content is
missing or content is empty; in each case no remote call is made. -/
theorem C7_validation_400 (r : Remote)
    (apiKey provided message : Option String)
    (hauth : checkApiKey apiKey provided = true) :
    apiDelete r apiKey provided none =
      (⟨400, .errorBody "Path is required"⟩, []) ∧
    ∀ path content : Option String,
      path = none ∨ content = none ∨ content = some "" →
      apiCreate r apiKey provided path content message =
        (⟨400, .errorBody "Path and content are required"⟩, []) := by
  constructor
  · simp [apiDelete, hauth, deleteHandler, jsFalsy]
  · intro path content hcase
    have hfal : jsFalsy path = true ∨ jsFalsy content = true := by
      rcases hcase with rfl | rfl | rfl <;> simp [jsFalsy]
    simp only [apiCreate, hauth, if_true, createHandler]
    rcases hfal with hf | hf <;> simp [hf]

/-- Witness for C7 at a concrete authorized key. -/
theorem C7_validation_400_witness :
    apiDelete sampleRemote (some "k") (some "k") none =
      (⟨400, .errorBody "Path is required"⟩, []) ∧
    ∀ path content : Option String,
      path = none ∨ content = none ∨ content = some "" →
      apiCreate sampleRemote (some "k") (some "k") path content none =
        (⟨400, .errorBody "Path and content are required"⟩, []) :=
  C7_validation_400 sampleRemote (some "k") (some "k") none (by decide)

/-- C8 counterexample: on a concrete directory delete where one item's
remote delete fails, that item's result is `{error, path}`: it carries
no boolean `success` field and no `message` field, so the claimed
uniform `{success: bool, path, message, error?}` shape does not hold. -/
theorem C8_item_shape_counterexample :
    ¬ ∀ item ∈ (deleteHandler sampleRemote (some "dir")).1.body.resultsOf,
        (∃ b, item.success = some b) ∧ item.message.isSome = true := by
  decide

/-- C8 amended: every per-item outcome in a directory-delete response
carries the item's path and no `message` field; a successful item is
`{success: true, path}` with no `error` field, and a failed item is
`{error, path}` with no `success` field. -/
theorem C8_item_shape_amended (r : Remote) (p : String)
    (items : List ContentEntry) (hp : p ≠ "")
    (hr : r.getContent p = .ok (.entries items)) :
    ∀ item ∈ (deleteHandler r (some p)).1.body.resultsOf,
      (item.success = some true ∧ item.error = none ∧
        item.message = none) ∨
      (item.success = none ∧ item.message = none ∧
        ∃ e, item.error = some e) := by
  rw [deleteHandler_dir r p items hp hr]
  intro item hitem
  simp only [Body.resultsOf, List.mem_map] at hitem
  obtain ⟨it, _, rfl⟩ := hitem
  unfold itemOutcome
  cases hdel : r.deleteFile it.path ("Delete " ++ it.path) it.sha <;>
    simp [hdel]

/-- Witness for the amended C8 at the concrete failed item of the
sample directory delete. -/
theorem C8_item_shape_amended_witness :
    ((ItemResult.mk none "dir/b.txt" none (some "boom")).success =
        some true ∧
      (ItemResult.mk none "dir/b.txt" none (some "boom")).error = none ∧
      (ItemResult.mk none "dir/b.txt" none (some "boom")).message =
        none) ∨
    ((ItemResult.mk none "dir/b.txt" none (some "boom")).success = none ∧
      (ItemResult.mk none "dir/b.txt" none (some "boom")).message =
        none ∧
      ∃ e,
        (ItemResult.mk none "dir/b.txt" none (some "boom")).error =
          some e) :=
  C8_item_shape_amended sampleRemote "dir" sampleDirItems (by decide)
    (by rfl) (ItemResult.mk none "dir/b.txt" none (some "boom"))
    (by decide)

/-- C9: Every successful create/update responds
`{success: true, message: "Updated <path>"}`, and when no commit
message is supplied the write call's commit message is exactly
`Update <path>`. -/
theorem C9_create_success_response (r : Remote) (p c : String)
    (message : Option String) (hp : p ≠ "") (hc : c ≠ "")
    (hw : r.createOrUpdateFileContents p
      (jsOrDefault message ("Update " ++ p)) (jsBase64 c)
      (lookupSha r p) = .ok ()) :
    (createHandler r (some p) (some c) message).1 =
      ⟨200, .okMessage ("Updated " ++ p)⟩ ∧
    (message = none →
      (createHandler r (some p) (some c) message).2 =
        [.getContent p,
         .createOrUpdateFileContents p ("Update " ++ p) (jsBase64 c)
           (lookupSha r p)]) := by
  constructor
  · rw [createHandler_valid r p c message hp hc]
    simp [hw]
  · intro hmsg
    subst hmsg
    rw [createHandler_valid r p c none hp hc]
    simp [jsOrDefault]

/-- Witness for C9 at concrete inputs with no commit message. -/
theorem C9_create_success_response_witness :
    (createHandler sampleRemote (some "a.txt") (some "hi") none).1 =
      ⟨200, .okMessage ("Updated " ++ "a.txt")⟩ ∧
    (none = (none : Option String) →
      (createHandler sampleRemote (some "a.txt") (some "hi") none).2 =
        [.getContent "a.txt",
         .createOrUpdateFileContents "a.txt" ("Update " ++ "a.txt")
           (jsBase64 "hi") (lookupSha sampleRemote "a.txt")]) :=
  C9_create_success_response sampleRemote "a.txt" "hi" none (by decide)
    (by decide) (by rfl)

/-- C10: When the configured API key is absent or empty, no provided
`x-api-key` value passes the gate: a falsy provided key is rejected
outright and a truthy one can never equal the absent/empty key, so
every protected endpoint answers 401 and issues no remote call. -/
theorem C10_empty_key_locks_out (r : Remote)
    (apiKey provided action path content message : Option String)
    (hk : apiKey = none ∨ apiKey = some "") :
    checkApiKey apiKey provided = false ∧
    apiList r apiKey provided path = (unauthorizedResponse, []) ∧
    apiDelete r apiKey provided path = (unauthorizedResponse, []) ∧
    apiCreate r apiKey provided path content message =
      (unauthorizedResponse, []) ∧
    apiClaude r apiKey provided action path content message =
      (unauthorizedResponse, []) := by
  have hck : checkApiKey apiKey provided = false := by
    cases provided with
    | none => rfl
    | some pr =>
      rcases hk with rfl | rfl
      · simp [checkApiKey]
      · by_cases hpr : pr = ""
        · simp [checkApiKey, hpr]
        · simp [checkApiKey, hpr]
  exact ⟨hck,
    routes_unauthorized r apiKey provided action path content message hck⟩

/-- Witness for C10 with an empty configured key and a truthy provided
key. -/
theorem C10_empty_key_locks_out_witness :
    checkApiKey (some "") (some "anything") = false ∧
    apiList sampleRemote (some "") (some "anything") (some "dir") =
      (unauthorizedResponse, []) ∧
    apiDelete sampleRemote (some "") (some "anything") (some "dir") =
      (unauthorizedResponse, []) ∧
    apiCreate sampleRemote (some "") (some "anything") (some "a.txt")
        (some "hi") none =
      (unauthorizedResponse, []) ∧
    apiClaude sampleRemote (some "") (some "anything") (some "list")
        (some "dir") none none =
      (unauthorizedResponse, []) :=
  C10_empty_key_locks_out sampleRemote (some "") (some "anything")
    (some "list") (some "dir") (some "hi") none (Or.inr rfl)

end GitHubAssistant
